import Mathlib

/-!
Verification development for the `5m-data-1.8-eda-basic` repository
(`src/visualisations/01_descriptive_statistics.py` … `07_cumulative_operations.py`).

Each script synthesizes a dataset from numpy's legacy `RandomState` seeded with
42, derives statistics, renders chart panels and saves a figure.  This file
shallowly embeds the parts of those scripts that the claims are about:

* the MT19937 pseudo-random generator and the legacy bounded-integer sampler
  (`np.random.seed` / `np.random.randint`), modelled over `Nat` with explicit
  reduction mod 2^32;
* the integer data columns of scripts 05 and 07 as concrete lists;
* `pd.cut`, pandas quantiles (linear interpolation), the IQR outlier flags and
  the capping step of script 04 over `ℚ`;
* the missing-value masks of script 03, the duplicate bookkeeping of script 06;
* each script's sequence of externally visible effects (per the spec's external
  interface: pseudo-random generation and one or more figure writes) and its
  straight-line, handler-free composition of fallible steps.
-/

set_option maxRecDepth 100000

namespace EDA

/-! ## MT19937 (numpy legacy `RandomState`) over `Nat`, reduced mod 2^32 -/

/-- 2^32, the word modulus of MT19937. -/
def U32 : Nat := 4294967296

/-- `init_genrand` recurrence: word `i` is
`(1812433253 * (prev ^^^ (prev >>> 30)) + i) mod 2^32`.
`mtInitAux prev i fuel` produces the next `fuel` words after `prev`. -/
def mtInitAux : Nat → Nat → Nat → List Nat
  | _, _, 0 => []
  | prev, i, fuel+1 =>
    let cur := (1812433253 * (Nat.xor prev (prev >>> 30)) + i) % U32
    cur :: mtInitAux cur (i+1) fuel

/-- The 624-word MT19937 state produced by `np.random.seed seed`. -/
def mtInit (seed : Nat) : List Nat :=
  (seed % U32) :: mtInitAux (seed % U32) 1 623

/-- Word `n` of a state list (0 when out of range). -/
def nthW (l : List Nat) (n : Nat) : Nat := l.getD n 0

/-- One full in-place twist of the MT19937 state, written functionally:
`acc` holds the already regenerated words `0 … i-1` most recent first, so
`new[0] = nthW acc 622` at `i = 623` and `new[i-227] = nthW acc 226` when
`i + 397 ≥ 624`. -/
def twistAux (old : List Nat) : Nat → Nat → List Nat → List Nat
  | 0, _, acc => acc.reverse
  | fuel+1, i, acc =>
    let cur := nthW old i
    let nxt := if i = 623 then nthW acc 622 else nthW old (i+1)
    let y := (cur / 0x80000000) * 0x80000000 + nxt % 0x80000000
    let src := if i + 397 ≤ 623 then nthW old (i+397) else nthW acc 226
    let v := Nat.xor (Nat.xor src (y / 2)) (if y % 2 = 1 then 0x9908b0df else 0)
    twistAux old fuel (i+1) (v :: acc)

/-- MT19937 tempering of one word. -/
def temper (y0 : Nat) : Nat :=
  let y1 := Nat.xor y0 (y0 >>> 11)
  let y2 := Nat.xor y1 ((y1 <<< 7) &&& 0x9d2c5680)
  let y3 := Nat.xor y2 ((y2 <<< 15) &&& 0xefc60000)
  Nat.xor y3 (y3 >>> 18)

/-- The first 624 outputs of `genrand_int32` from a given 624-word state: one
twist, each word tempered.  Every bounded-integer draw the claims need happens
within these 624 outputs. -/
def mtBlockOf (st : List Nat) : List Nat :=
  (twistAux st 624 0 []).map temper

/-- The first 624 outputs of `genrand_int32` after `np.random.seed seed`. -/
def mtBlock (seed : Nat) : List Nat := mtBlockOf (mtInit seed)

/-- numpy's bounded-integer mask: the smallest `2^k - 1` covering `rng`,
computed by bit smearing as in `_bounded_integers`. -/
def maskFor (rng : Nat) : Nat :=
  let m := rng ||| (rng >>> 1)
  let m := m ||| (m >>> 2)
  let m := m ||| (m >>> 4)
  let m := m ||| (m >>> 8)
  m ||| (m >>> 16)

/-- Legacy masked rejection sampling: take 32-bit words, mask them, keep the
result when it is `≤ rng`, until `size` values are produced. -/
def randintAux (rng mask : Nat) : List Nat → Nat → List Nat
  | _, 0 => []
  | [], _+1 => []
  | w :: ws, n+1 =>
    let v := w &&& mask
    if v ≤ rng then v :: randintAux rng mask ws n
    else randintAux rng mask ws (n+1)

/-- `np.random.randint(low, high, size)` of numpy's legacy `RandomState` run
from a given generator state. -/
def randintOf (st : List Nat) (low high : Int) (size : Nat) : List Int :=
  let rng := (high - low - 1).toNat
  (randintAux rng (maskFor rng) (mtBlockOf st) size).map (fun v => low + (v : Int))

/-- `np.random.randint(low, high, size)` drawn directly after
`np.random.seed seed` (all scripts seed first, and the draws modelled here are
the first draws of their script). -/
def randint (seed : Nat) (low high : Int) (size : Nat) : List Int :=
  randintOf (mtInit seed) low high size

/-! ## Script 05 (`05_categorical_binning.py`): ages and `pd.cut` -/

/-- `ages = np.random.randint(18, 75, 200)` drawn right after `np.random.seed(42)`
(lines 14–15 of `05_categorical_binning.py`). -/
def ages : List Int := randint 42 18 75 200

/-- The four labels `labels_cut = ['Young Adult', 'Adult', 'Middle Age', 'Senior']`. -/
inductive AgeGroup
  | youngAdult
  | adult
  | middleAge
  | senior
deriving DecidableEq

/-- `pd.cut(df_ages['age'], bins=[18, 30, 45, 60, 75], labels=labels_cut)` applied
to one value.  With pandas' defaults (`right=True`, `include_lowest=False`) the
intervals are left-open and right-closed: `(18,30], (30,45], (45,60], (60,75]`;
values outside all four intervals (in particular the left edge 18 itself) are
assigned no label (`NaN`). -/
def pdCutAge (x : Int) : Option AgeGroup :=
  if 18 < x ∧ x ≤ 30 then some AgeGroup.youngAdult
  else if 30 < x ∧ x ≤ 45 then some AgeGroup.adult
  else if 45 < x ∧ x ≤ 60 then some AgeGroup.middleAge
  else if 60 < x ∧ x ≤ 75 then some AgeGroup.senior
  else none

/-! ## Script 07 (`07_cumulative_operations.py`): daily changes and cumulatives -/

/-- `daily_values = np.random.randint(-10, 20, 50)` drawn right after
`np.random.seed(42)` (lines 14–16; `pd.date_range` consumes no randomness). -/
def daily_values : List Int := randint 42 (-10) 20 50

/-- `Series.cumsum`: running total, `out[i] = x[0] + … + x[i]`. -/
def cumsumAux (acc : Int) : List Int → List Int
  | [] => []
  | x :: xs => (acc + x) :: cumsumAux (acc + x) xs

/-- `df['daily_change'].cumsum()`. -/
def cumsum (l : List Int) : List Int := cumsumAux 0 l

/-- `Series.cummax`: running maximum, `out[i] = max(x[0], …, x[i])`. -/
def cummaxAux (m : Int) : List Int → List Int
  | [] => []
  | x :: xs => max m x :: cummaxAux (max m x) xs

/-- `df['daily_change'].cummax()`. -/
def cummax : List Int → List Int
  | [] => []
  | x :: xs => x :: cummaxAux x xs

/-- `Series.cummin`: running minimum, `out[i] = min(x[0], …, x[i])`. -/
def cumminAux (m : Int) : List Int → List Int
  | [] => []
  | x :: xs => min m x :: cumminAux (min m x) xs

/-- `df['daily_change'].cummin()`. -/
def cummin : List Int → List Int
  | [] => []
  | x :: xs => x :: cumminAux x xs

/-- The value of `ages`, evaluated once so later facts read off the literal. -/
def agesList : List Int := [56, 69, 46, 32, 60, 25, 38, 56, 36, 40, 28, 28, 41, 70, 53, 57, 41, 20, 39, 70, 19, 41, 61, 47, 55, 19, 38, 50, 29, 39, 61, 42, 66, 44, 59, 45, 33, 32, 64, 68, 61, 72, 69, 74, 20, 54, 68, 24, 38, 26, 56, 35, 21, 42, 31, 67, 26, 43, 70, 19, 37, 45, 64, 24, 61, 25, 64, 52, 31, 34, 53, 67, 57, 21, 19, 23, 71, 59, 21, 71, 46, 35, 43, 61, 51, 27, 53, 31, 48, 65, 32, 25, 31, 40, 74, 57, 38, 33, 62, 35, 64, 70, 41, 43, 42, 62, 58, 46, 32, 62, 18, 42, 24, 26, 41, 18, 61, 25, 41, 28, 68, 34, 25, 52, 52, 50, 22, 59, 56, 58, 45, 24, 26, 25, 29, 51, 50, 65, 72, 40, 41, 54, 52, 61, 57, 39, 44, 52, 18, 52, 54, 64, 31, 20, 18, 22, 43, 72, 31, 56, 44, 26, 32, 32, 43, 59, 30, 68, 49, 56, 66, 69, 49, 21, 47, 54, 40, 56, 62, 32, 60, 46, 53, 30, 49, 24, 68, 39, 45, 19, 59, 62, 74, 70, 23, 45, 45, 61, 61, 37]

/-- The value of `daily_values`, evaluated once. -/
def dailyList : List Int := [-4, 9, 18, 4, 0, -3, 18, 10, -4, 15, 8, 12, 0, 0, 13, 10, -7, -3, 13, -8, 11, 10, -9, 13, 1, 19, -5, -9, 17, 10, -10, 1, 15, 11, 18, 1, 14, 6, 16, 16, -1, 17, 17, 5, 4, 19, 19, 4, 19, 8]

/-! ## Script 04 (`04_outliers.py`): quantiles, IQR flags and capping

The 206 values of `df['values']` are floating-point draws that the claims treat
abstractly; the statistics below are therefore defined over an arbitrary
`vs : List ℚ` exactly as the source computes them. -/

/-- `Series.quantile q` with pandas' default linear interpolation: on the
ascending sort `s` of the values, with `h = (n-1) * q`, `j = ⌊h⌋` and
`g = h - j`, the result is `s[j] + g * (s[j+1] - s[j])` (the `j+1` entry
falling back to `s[j]` at the top edge). -/
def quantile (vs : List ℚ) (q : ℚ) : ℚ :=
  let s := List.insertionSort (· ≤ ·) vs
  let h : ℚ := ((vs.length : ℚ) - 1) * q
  let j : Nat := (Int.floor h).toNat
  let g : ℚ := h - (j : ℚ)
  let a := s.getD j 0
  let b := s.getD (j+1) a
  a + g * (b - a)

/-- `Q1 = df['values'].quantile(0.25)`. -/
def Q1 (vs : List ℚ) : ℚ := quantile vs 0.25

/-- `Q3 = df['values'].quantile(0.75)`. -/
def Q3 (vs : List ℚ) : ℚ := quantile vs 0.75

/-- `IQR = Q3 - Q1`. -/
def IQR (vs : List ℚ) : ℚ := Q3 vs - Q1 vs

/-- `lower_bound = Q1 - 1.5 * IQR`. -/
def lower_bound (vs : List ℚ) : ℚ := Q1 vs - 1.5 * IQR vs

/-- `upper_bound = Q3 + 1.5 * IQR`. -/
def upper_bound (vs : List ℚ) : ℚ := Q3 vs + 1.5 * IQR vs

/-- `is_outlier = (df['values'] < lower_bound) | (df['values'] > upper_bound)`,
per element. -/
def is_outlier (vs : List ℚ) (x : ℚ) : Bool :=
  decide (x < lower_bound vs) || decide (x > upper_bound vs)

/-- `df_capped.loc[df_capped['values'] < lower_bound, 'values'] = lower_bound`. -/
def capLow (lb : ℚ) (vs : List ℚ) : List ℚ :=
  vs.map fun x => if x < lb then lb else x

/-- `df_capped.loc[df_capped['values'] > upper_bound, 'values'] = upper_bound`. -/
def capHigh (ub : ℚ) (vs : List ℚ) : List ℚ :=
  vs.map fun x => if ub < x then ub else x

/-- Lines 156–158: `df_capped = df.copy()` followed by the two clamping
assignments (the second assignment filters the already low-clamped copy).
Returns the pair (`df['values']`, `df_capped['values']`); the first component
records that the assignments target the copy, not the original frame. -/
def capStep (vs : List ℚ) : List ℚ × List ℚ :=
  (vs, capHigh (upper_bound vs) (capLow (lower_bound vs) vs))

/-! ## Script 03 (`03_missing_data.py`): missing-value bookkeeping

Lines 25–29 pick, for each of the five columns, a set of row positions without
replacement (`np.random.choice(data.index, k, replace=False)`) and set those
cells to `NaN`.  A draw without replacement of `k` positions out of 100 is a
set of `k` distinct indices, modelled as a `Finset (Fin 100)` of cardinality
`k`; the claims never depend on which indices were drawn. -/

/-- The per-column `NaN` masks of `data` (one `Finset` of row positions per
column A…E). -/
structure MissingMasks where
  mA : Finset (Fin 100)
  mB : Finset (Fin 100)
  mC : Finset (Fin 100)
  mD : Finset (Fin 100)
  mE : Finset (Fin 100)

/-- `data[col].isna().sum()`: the number of rows whose cell in the column is
missing. -/
def isnaSum (s : Finset (Fin 100)) : Nat :=
  (Finset.univ.filter (fun i => i ∈ s)).card

/-- `data.isna().sum().sum()`, the summary table's `'Missing Cells'`
(line 145). -/
def missingCells (m : MissingMasks) : Nat :=
  isnaSum m.mA + isnaSum m.mB + isnaSum m.mC + isnaSum m.mD + isnaSum m.mE

/-- `data.size`: 100 rows × 5 columns, the summary table's `'Total Cells'`. -/
def totalCells : Nat := 100 * 5

/-- `data.isna().sum().sum() / data.size * 100`, the summary table's
`'Missing %'` (line 146). -/
def missingPct (m : MissingMasks) : ℚ :=
  (missingCells m : ℚ) / (totalCells : ℚ) * 100

/-! ## Script 06 (`06_duplicates.py`): duplicate bookkeeping

`large_data` (lines 26–31) has columns Product, Region, Sales and a `Date`
column holding a strictly increasing daily range, modelled below by the row's
position `i` itself; the Product/Region/Sales columns are arbitrary lists read
positionally.  Lines 34–37 then append, for each index of a 50-element draw
from `0…299`, a copy of that original row: since the loop only ever appends at
the end and every index is `< 300`, `iloc[idx:idx+1]` always hits the original
300-row segment. -/

/-- One row of `large_data`: (Product, Region, Sales, Date-as-day-offset). -/
abbrev Row := String × String × Nat × Nat

/-- The 300 originally generated rows. -/
def mkRows (ps rs : List String) (ss : List Nat) : List Row :=
  (List.range 300).map fun i => (ps.getD i "", rs.getD i "", ss.getD i 0, i)

/-- `large_data` after the duplication loop of lines 35–37. -/
def appendDups (rows : List Row) (idxs : List Nat) : List Row :=
  rows ++ idxs.map fun i => rows.getD i ("", "", 0, 0)

/-- `Series/DataFrame.duplicated()` with the default `keep='first'`: a row is
flagged exactly when an equal row occurred earlier.  `seen` carries the rows
already passed. -/
def dupFlagsAux {α : Type} [DecidableEq α] : List α → List α → List Bool
  | _, [] => []
  | seen, x :: xs => decide (x ∈ seen) :: dupFlagsAux (x :: seen) xs

/-- `large_data.duplicated()` as a list of flags. -/
def duplicatedFlags {α : Type} [DecidableEq α] (l : List α) : List Bool :=
  dupFlagsAux [] l

/-- `drop_duplicates()` with the default `keep='first'`: keep each row's first
occurrence. -/
def dropDupsAux {α : Type} [DecidableEq α] : List α → List α → List α
  | _, [] => []
  | seen, x :: xs =>
    if x ∈ seen then dropDupsAux seen xs else x :: dropDupsAux (x :: seen) xs

/-- `large_data.drop_duplicates()`. -/
def drop_duplicates {α : Type} [DecidableEq α] (l : List α) : List α :=
  dropDupsAux [] l

/-- The summary table's `'Duplicate %'` (line 223):
`(len(large_data) - len(large_data.drop_duplicates())) / len(large_data) * 100`. -/
def duplicatePct (l : List Row) : ℚ :=
  ((l.length : ℚ) - ((drop_duplicates l).length : ℚ)) / (l.length : ℚ) * 100

/-! ## Effect traces of the seven scripts

Each script is a straight line of statements; the events below record, in
source order, its `np.random.seed` call, its `np.random.*` sampling calls
(`draw`), the drawing of each figure panel (`render`, one per `ax…` section)
and each `plt.savefig` (`save`).  Statistic computations between panels are
internal (no external interface) and are not events; likewise the spec places
the trailing `print` statements out of scope, so they are not events either. -/

/-- One externally relevant event of a script run. -/
inductive Event
  | seed (s : Nat)
  | draw
  | render
  | save (path : String)
deriving DecidableEq

/-- The spec's external interface (§6): pseudo-random generation (seeding
included) and filesystem writes; panel rendering only touches the in-process
canvas. -/
def isExt : Event → Bool
  | Event.render => false
  | _ => true

def extEvents (t : List Event) : List Event := t.filter isExt

def savePaths (t : List Event) : List String :=
  t.filterMap fun e =>
    match e with
    | Event.save p => some p
    | _ => none

def numSaves (t : List Event) : Nat := (savePaths t).length

def isSeed : Event → Bool
  | Event.seed _ => true
  | _ => false

def numSeeds (t : List Event) : Nat := (t.filter isSeed).length

def lastIsSave (t : List Event) : Bool :=
  match t.getLast? with
  | some (Event.save _) => true
  | _ => false

/-- Phase number of an event under the claimed seed → build → render → save
ordering. -/
def phaseIdx : Event → Nat
  | Event.seed _ => 0
  | Event.draw => 1
  | Event.render => 2
  | Event.save _ => 3

def phasesOk : Nat → List Event → Bool
  | _, [] => true
  | cur, e :: es => decide (cur ≤ phaseIdx e) && phasesOk (phaseIdx e) es

/-- The trace's events occur in non-decreasing phase order. -/
def phaseOrdered (t : List Event) : Bool := phasesOk 0 t

/-- Number of `draw` events occurring after the first `render` event. -/
def drawsAfterRenderAux : Bool → List Event → Nat
  | _, [] => 0
  | started, e :: es =>
    match e with
    | Event.render => drawsAfterRenderAux true es
    | Event.draw => (if started then 1 else 0) + drawsAfterRenderAux started es
    | _ => drawsAfterRenderAux started es

def drawsAfterRender (t : List Event) : Nat := drawsAfterRenderAux false t

def path01a : String :=
  "/Users/jawad/Documents/work/dsai/5m-data-1.8-eda-basic/illustrations/01_descriptive_statistics.png"

def path01b : String :=
  "/Users/jawad/Documents/work/dsai/5m-data-1.8-eda-basic/illustrations/01_descriptive_statistics_table.png"

def path02 : String :=
  "/Users/jawad/Documents/work/dsai/5m-data-1.8-eda-basic/illustrations/02_value_counts.png"

def path03 : String :=
  "/Users/jawad/Documents/work/dsai/5m-data-1.8-eda-basic/illustrations/03_missing_data.png"

def path04 : String :=
  "/Users/jawad/Documents/work/dsai/5m-data-1.8-eda-basic/illustrations/04_outliers.png"

def path05 : String :=
  "/Users/jawad/Documents/work/dsai/5m-data-1.8-eda-basic/illustrations/05_categorical_binning.png"

def path06 : String :=
  "/Users/jawad/Documents/work/dsai/5m-data-1.8-eda-basic/illustrations/06_duplicates.png"

def path07 : String :=
  "/Users/jawad/Documents/work/dsai/5m-data-1.8-eda-basic/illustrations/07_cumulative_operations.png"

/-- `01_descriptive_statistics.py`: seed (l.15); normal, exponential, uniform
draws (l.17–19); three loop iterations each rendering a histogram and a box
plot (l.29–64); first save (l.67); the `describe()` table panel (l.73–98);
second save (l.102). -/
def trace01 : List Event :=
  [Event.seed 42, Event.draw, Event.draw, Event.draw,
   Event.render, Event.render, Event.render, Event.render, Event.render, Event.render,
   Event.save path01a, Event.render, Event.save path01b]

/-- `02_value_counts.py`: seed (l.14); `np.random.choice` (l.19); panels
ax1–ax6; save (l.134). -/
def trace02 : List Event :=
  [Event.seed 42, Event.draw,
   Event.render, Event.render, Event.render, Event.render, Event.render, Event.render,
   Event.save path02]

/-- `03_missing_data.py`: seed (l.14); five `randn` draws (l.17–21) and five
`choice` draws (l.25–29); panels ax1–ax8; save (l.174). -/
def trace03 : List Event :=
  [Event.seed 42,
   Event.draw, Event.draw, Event.draw, Event.draw, Event.draw,
   Event.draw, Event.draw, Event.draw, Event.draw, Event.draw,
   Event.render, Event.render, Event.render, Event.render,
   Event.render, Event.render, Event.render, Event.render,
   Event.save path03]

/-- `04_outliers.py`: seed (l.14); `normal` draw (l.15); panels ax1–ax8;
save (l.228). -/
def trace04 : List Event :=
  [Event.seed 42, Event.draw,
   Event.render, Event.render, Event.render, Event.render,
   Event.render, Event.render, Event.render, Event.render,
   Event.save path04]

/-- `05_categorical_binning.py`: seed (l.14); `randint` draw (l.15); panels
ax1–ax9; save (l.220). -/
def trace05 : List Event :=
  [Event.seed 42, Event.draw,
   Event.render, Event.render, Event.render, Event.render, Event.render,
   Event.render, Event.render, Event.render, Event.render,
   Event.save path05]

/-- `06_duplicates.py`: seed (l.14); draws `randn` (l.19), `choice` (l.27),
`choice` (l.28), `randint` (l.29), `choice` (l.34); panels ax1–ax8;
save (l.254). -/
def trace06 : List Event :=
  [Event.seed 42,
   Event.draw, Event.draw, Event.draw, Event.draw, Event.draw,
   Event.render, Event.render, Event.render, Event.render,
   Event.render, Event.render, Event.render, Event.render,
   Event.save path06]

/-- `07_cumulative_operations.py`: seed (l.14); `randint` draw (l.16); panels
ax1–ax3; the `returns = np.random.randn(50)` draw (l.90) after rendering has
begun; panels ax4–ax6; save (l.191). -/
def trace07 : List Event :=
  [Event.seed 42, Event.draw,
   Event.render, Event.render, Event.render,
   Event.draw,
   Event.render, Event.render, Event.render,
   Event.save path07]

/-- The seven scripts' traces. -/
def allTraces : List (List Event) :=
  [trace01, trace02, trace03, trace04, trace05, trace06, trace07]

/-! ## C1: a script run as a function of the pre-existing generator state -/

/-- `np.random.seed s`: replaces whatever generator state existed before. -/
def npseed (_pre : List Nat) (s : Nat) : List Nat := mtInit s

/-- A script run as the spec describes it: seed 42 first, then produce the
dataset and everything derived from it (`gen`) as a deterministic function of
the generator state.  `pre` is the generator state the process happened to
have before the script's seed call. -/
def seededRun {α : Type} (gen : List Nat → α) (pre : List Nat) : α :=
  gen (npseed pre 42)

/-- Script 05's `ages` synthesis as a run from an arbitrary prior state. -/
def script05ages (pre : List Nat) : List Int :=
  randintOf (npseed pre 42) 18 75 200

/-- Script 07's `daily_values` synthesis as a run from an arbitrary prior
state. -/
def script07daily (pre : List Nat) : List Int :=
  randintOf (npseed pre 42) (-10) 20 50

/-! ## C7: straight-line composition of fallible steps

None of the seven sources contains `try`/`except` (or any other handler), so
a script is a bare sequential composition of steps, each of which may fail;
`runSteps` is that composition. -/

/-- Run the steps left to right; the first failure becomes the result of the
whole script and no later step runs. -/
def runSteps {σ ε : Type} : List (σ → Except ε σ) → σ → Except ε σ
  | [], s => Except.ok s
  | f :: fs, s =>
    match f s with
    | Except.ok s' => runSteps fs s'
    | Except.error e => Except.error e

/-! # Theorems -/

theorem ages_eval : ages = agesList := by rfl

theorem daily_eval : daily_values = dailyList := by rfl

/-! ### Generic facts about the cumulative operations -/

theorem cummaxAux_head_le (m : Int) (l : List Int) :
    ∀ b ∈ (cummaxAux m l).head?, m ≤ b := by
  cases l with
  | nil => simp [cummaxAux]
  | cons x xs => simp [cummaxAux]

theorem cummaxAux_chain (l : List Int) :
    ∀ m : Int, List.Chain' (· ≤ ·) (cummaxAux m l) := by
  induction l with
  | nil => intro m; simp [cummaxAux]
  | cons x xs ih =>
    intro m
    simp only [cummaxAux]
    exact List.chain'_cons'.mpr ⟨cummaxAux_head_le (max m x) xs, ih (max m x)⟩

theorem cummaxAux_le (l : List Int) :
    ∀ m : Int, List.Forall₂ (· ≤ ·) l (cummaxAux m l) := by
  induction l with
  | nil => intro m; simp [cummaxAux]
  | cons x xs ih =>
    intro m
    simp only [cummaxAux]
    exact List.Forall₂.cons (le_max_right m x) (ih (max m x))

theorem cummax_chain (l : List Int) : List.Chain' (· ≤ ·) (cummax l) := by
  cases l with
  | nil => simp [cummax]
  | cons x xs =>
    simp only [cummax]
    exact List.chain'_cons'.mpr ⟨cummaxAux_head_le x xs, cummaxAux_chain xs x⟩

theorem cummax_le (l : List Int) : List.Forall₂ (· ≤ ·) l (cummax l) := by
  cases l with
  | nil => simp [cummax]
  | cons x xs =>
    simp only [cummax]
    exact List.Forall₂.cons le_rfl (cummaxAux_le xs x)

theorem cumminAux_head_ge (m : Int) (l : List Int) :
    ∀ b ∈ (cumminAux m l).head?, b ≤ m := by
  cases l with
  | nil => simp [cumminAux]
  | cons x xs => simp [cumminAux]

theorem cumminAux_chain (l : List Int) :
    ∀ m : Int, List.Chain' (fun a b => b ≤ a) (cumminAux m l) := by
  induction l with
  | nil => intro m; simp [cumminAux]
  | cons x xs ih =>
    intro m
    simp only [cumminAux]
    exact List.chain'_cons'.mpr ⟨cumminAux_head_ge (min m x) xs, ih (min m x)⟩

theorem cumminAux_le (l : List Int) :
    ∀ m : Int, List.Forall₂ (· ≤ ·) (cumminAux m l) l := by
  induction l with
  | nil => intro m; simp [cumminAux]
  | cons x xs ih =>
    intro m
    simp only [cumminAux]
    exact List.Forall₂.cons (min_le_right m x) (ih (min m x))

theorem cummin_chain (l : List Int) : List.Chain' (fun a b => b ≤ a) (cummin l) := by
  cases l with
  | nil => simp [cummin]
  | cons x xs =>
    simp only [cummin]
    exact List.chain'_cons'.mpr ⟨cumminAux_head_ge x xs, cumminAux_chain xs x⟩

theorem cummin_le (l : List Int) : List.Forall₂ (· ≤ ·) (cummin l) l := by
  cases l with
  | nil => simp [cummin]
  | cons x xs =>
    simp only [cummin]
    exact List.Forall₂.cons le_rfl (cumminAux_le xs x)

theorem cumsumAux_getD (l : List Int) :
    ∀ (acc : Int) (i : Nat), i < l.length →
      (cumsumAux acc l).getD i 0 = acc + (l.take (i + 1)).sum := by
  induction l with
  | nil => intro acc i h; simp at h
  | cons x xs ih =>
    intro acc i h
    cases i with
    | zero => simp [cumsumAux]
    | succ i =>
      simp only [cumsumAux, List.getD_cons_succ, List.take_succ_cons, List.sum_cons]
      rw [ih (acc + x) i (by simpa using h)]
      ring

theorem cumsum_getD (l : List Int) (i : Nat) (h : i < l.length) :
    (cumsum l).getD i 0 = (l.take (i + 1)).sum := by
  rw [cumsum, cumsumAux_getD l 0 i h, zero_add]

/-! ### Generic facts about `duplicated` / `drop_duplicates` -/

theorem dropDupsAux_all_seen {α : Type} [DecidableEq α] :
    ∀ l seen : List α, (∀ y ∈ l, y ∈ seen) → dropDupsAux seen l = [] := by
  intro l
  induction l with
  | nil => intro seen _; rfl
  | cons x xs ih =>
    intro seen hsub
    have hx : x ∈ seen := hsub x (List.mem_cons_self x xs)
    simp only [dropDupsAux, if_pos hx]
    exact ih seen fun y hy => hsub y (List.mem_cons_of_mem x hy)

theorem dropDupsAux_append {α : Type} [DecidableEq α] :
    ∀ l₁ seen l₂ : List α, l₁.Nodup → (∀ x ∈ l₁, x ∉ seen) →
      (∀ y ∈ l₂, y ∈ l₁ ∨ y ∈ seen) → dropDupsAux seen (l₁ ++ l₂) = l₁ := by
  intro l₁
  induction l₁ with
  | nil =>
    intro seen l₂ _ _ hsub
    simp only [List.nil_append]
    exact dropDupsAux_all_seen l₂ seen fun y hy => (hsub y hy).resolve_left (by simp)
  | cons x l₁ ih =>
    intro seen l₂ hnd hdisj hsub
    have hx : x ∉ seen := hdisj x (List.mem_cons_self x l₁)
    simp only [List.cons_append, dropDupsAux, if_neg hx]
    congr 1
    apply ih (x :: seen) l₂ (List.Nodup.of_cons hnd)
    · intro z hz hmem
      rcases List.mem_cons.mp hmem with h1 | h2
      · exact (List.nodup_cons.mp hnd).1 (h1 ▸ hz)
      · exact hdisj z (List.mem_cons_of_mem x hz) h2
    · intro y hy
      rcases hsub y hy with h1 | h2
      · rcases List.mem_cons.mp h1 with h3 | h4
        · exact Or.inr (h3 ▸ List.mem_cons_self x seen)
        · exact Or.inl h4
      · exact Or.inr (List.mem_cons_of_mem x h2)

theorem dupFlagsAux_all_seen {α : Type} [DecidableEq α] :
    ∀ l seen : List α, (∀ y ∈ l, y ∈ seen) →
      dupFlagsAux seen l = List.replicate l.length true := by
  intro l
  induction l with
  | nil => intro seen _; rfl
  | cons x xs ih =>
    intro seen hsub
    have hx : x ∈ seen := hsub x (List.mem_cons_self x xs)
    simp only [dupFlagsAux, List.length_cons, List.replicate_succ, decide_eq_true hx]
    exact congrArg (true :: ·) (ih (x :: seen) fun y hy =>
      List.mem_cons_of_mem x (hsub y (List.mem_cons_of_mem x hy)))

theorem dupFlagsAux_append {α : Type} [DecidableEq α] :
    ∀ l₁ seen l₂ : List α, l₁.Nodup → (∀ x ∈ l₁, x ∉ seen) →
      (∀ y ∈ l₂, y ∈ l₁ ∨ y ∈ seen) →
      dupFlagsAux seen (l₁ ++ l₂) =
        List.replicate l₁.length false ++ List.replicate l₂.length true := by
  intro l₁
  induction l₁ with
  | nil =>
    intro seen l₂ _ _ hsub
    simp only [List.nil_append, List.length_nil, List.replicate_zero]
    exact dupFlagsAux_all_seen l₂ seen fun y hy => (hsub y hy).resolve_left (by simp)
  | cons x l₁ ih =>
    intro seen l₂ hnd hdisj hsub
    have hx : x ∉ seen := hdisj x (List.mem_cons_self x l₁)
    simp only [List.cons_append, dupFlagsAux, List.length_cons, List.replicate_succ,
      decide_eq_false hx]
    refine congrArg (false :: ·) ?_
    apply ih (x :: seen) l₂ (List.Nodup.of_cons hnd)
    · intro z hz hmem
      rcases List.mem_cons.mp hmem with h1 | h2
      · exact (List.nodup_cons.mp hnd).1 (h1 ▸ hz)
      · exact hdisj z (List.mem_cons_of_mem x hz) h2
    · intro y hy
      rcases hsub y hy with h1 | h2
      · rcases List.mem_cons.mp h1 with h3 | h4
        · exact Or.inr (h3 ▸ List.mem_cons_self x seen)
        · exact Or.inl h4
      · exact Or.inr (List.mem_cons_of_mem x h2)

theorem mkRows_length (ps rs : List String) (ss : List Nat) :
    (mkRows ps rs ss).length = 300 := by
  simp [mkRows]

theorem mkRows_nodup (ps rs : List String) (ss : List Nat) :
    (mkRows ps rs ss).Nodup := by
  refine List.Nodup.map ?_ (List.nodup_range 300)
  intro i j hij
  simpa using congrArg (fun r : Row => r.2.2.2) hij

theorem mkRows_getD_mem (ps rs : List String) (ss : List Nat) (i : Nat) (d : Row)
    (h : i < 300) : (mkRows ps rs ss).getD i d ∈ mkRows ps rs ss := by
  have h' : i < (mkRows ps rs ss).length := by rw [mkRows_length]; exact h
  rw [List.getD_eq_getElem _ _ h']
  exact List.getElem_mem h'

/-! ### Facts about the pandas quantile on the 206-value column of script 04 -/

theorem quantile_repr (vs : List ℚ) (q : ℚ) :
    quantile vs q =
      (List.insertionSort (· ≤ ·) vs).getD (Int.floor (((vs.length : ℚ) - 1) * q)).toNat 0 +
        (((vs.length : ℚ) - 1) * q - ((Int.floor (((vs.length : ℚ) - 1) * q)).toNat : ℚ)) *
          ((List.insertionSort (· ≤ ·) vs).getD
              ((Int.floor (((vs.length : ℚ) - 1) * q)).toNat + 1)
              ((List.insertionSort (· ≤ ·) vs).getD
                (Int.floor (((vs.length : ℚ) - 1) * q)).toNat 0) -
            (List.insertionSort (· ≤ ·) vs).getD
              (Int.floor (((vs.length : ℚ) - 1) * q)).toNat 0) := rfl

theorem insertionSort_getD_mono (vs : List ℚ) (i j : Nat) (hij : i ≤ j)
    (hj : j < (List.insertionSort (· ≤ ·) vs).length) :
    (List.insertionSort (· ≤ ·) vs).getD i 0 ≤ (List.insertionSort (· ≤ ·) vs).getD j 0 := by
  have hi : i < (List.insertionSort (· ≤ ·) vs).length := lt_of_le_of_lt hij hj
  rw [List.getD_eq_getElem _ _ hi, List.getD_eq_getElem _ _ hj]
  have hs := List.sorted_insertionSort (· ≤ ·) vs
  have hr := hs.rel_get_of_le (a := ⟨i, hi⟩) (b := ⟨j, hj⟩) (Fin.mk_le_mk.mpr hij)
  simpa using hr

theorem floor_q1_206 : (Int.floor ((((206 : ℕ) : ℚ) - 1) * 0.25)).toNat = 51 := by
  have hv : (((206 : ℕ) : ℚ) - 1) * 0.25 = 205 / 4 := by norm_num
  have h : Int.floor ((205 : ℚ) / 4) = 51 := by
    rw [Int.floor_eq_iff]
    constructor <;> norm_num
  rw [hv, h]
  rfl

theorem floor_q3_206 : (Int.floor ((((206 : ℕ) : ℚ) - 1) * 0.75)).toNat = 153 := by
  have hv : (((206 : ℕ) : ℚ) - 1) * 0.75 = 615 / 4 := by norm_num
  have h : Int.floor ((615 : ℚ) / 4) = 153 := by
    rw [Int.floor_eq_iff]
    constructor <;> norm_num
  rw [hv, h]
  rfl

theorem Q1_le_Q3 (vs : List ℚ) (h : vs.length = 206) : Q1 vs ≤ Q3 vs := by
  have hlen : (List.insertionSort (· ≤ ·) vs).length = 206 := by
    rw [List.length_insertionSort, h]
  have h52 : (List.insertionSort (· ≤ ·) vs).getD 52
      ((List.insertionSort (· ≤ ·) vs).getD 51 0) =
      (List.insertionSort (· ≤ ·) vs).getD 52 0 := by
    rw [List.getD_eq_getElem _ _ (by rw [hlen]; norm_num),
      List.getD_eq_getElem _ _ (by rw [hlen]; norm_num)]
  have h154 : (List.insertionSort (· ≤ ·) vs).getD 154
      ((List.insertionSort (· ≤ ·) vs).getD 153 0) =
      (List.insertionSort (· ≤ ·) vs).getD 154 0 := by
    rw [List.getD_eq_getElem _ _ (by rw [hlen]; norm_num),
      List.getD_eq_getElem _ _ (by rw [hlen]; norm_num)]
  have e1 : Q1 vs = (List.insertionSort (· ≤ ·) vs).getD 51 0 +
      (1 / 4) * ((List.insertionSort (· ≤ ·) vs).getD 52 0 -
        (List.insertionSort (· ≤ ·) vs).getD 51 0) := by
    rw [Q1, quantile_repr, h, floor_q1_206, h52]
    norm_num
  have e3 : Q3 vs = (List.insertionSort (· ≤ ·) vs).getD 153 0 +
      (3 / 4) * ((List.insertionSort (· ≤ ·) vs).getD 154 0 -
        (List.insertionSort (· ≤ ·) vs).getD 153 0) := by
    rw [Q3, quantile_repr, h, floor_q3_206, h154]
    norm_num
  have m1 : (List.insertionSort (· ≤ ·) vs).getD 51 0 ≤
      (List.insertionSort (· ≤ ·) vs).getD 52 0 :=
    insertionSort_getD_mono vs 51 52 (by norm_num) (by rw [hlen]; norm_num)
  have m2 : (List.insertionSort (· ≤ ·) vs).getD 52 0 ≤
      (List.insertionSort (· ≤ ·) vs).getD 153 0 :=
    insertionSort_getD_mono vs 52 153 (by norm_num) (by rw [hlen]; norm_num)
  have m3 : (List.insertionSort (· ≤ ·) vs).getD 153 0 ≤
      (List.insertionSort (· ≤ ·) vs).getD 154 0 :=
    insertionSort_getD_mono vs 153 154 (by norm_num) (by rw [hlen]; norm_num)
  rw [e1, e3]
  linarith

theorem lower_le_upper (vs : List ℚ) (h : vs.length = 206) :
    lower_bound vs ≤ upper_bound vs := by
  have hq := Q1_le_Q3 vs h
  rw [lower_bound, upper_bound, IQR]
  linarith

theorem getD_map_lt {α β : Type} (f : α → β) (l : List α) (i : Nat) (d : α) (d' : β)
    (h : i < l.length) : (l.map f).getD i d' = f (l.getD i d) := by
  rw [List.getD_eq_getElem _ _ (by simpa using h), List.getElem_map,
    List.getD_eq_getElem _ _ h]

/-! ## The claims -/

/-- C1: every script is deterministic: it seeds the generator with the fixed
seed 42 before any draw, so a run is a constant function of whatever generator
state preceded it — any two executions produce identical synthesized datasets
and identical derived statistics (`gen` below covers any derivation from the
seeded state), and the concrete integer columns of scripts 05 and 07 always
come out as the fixed lists `ages` and `daily_values`. -/
theorem C1_deterministic_runs :
    (∀ (α : Type) (gen : List Nat → α) (pre₁ pre₂ : List Nat),
        seededRun gen pre₁ = seededRun gen pre₂) ∧
    (∀ pre₁ pre₂ : List Nat, script05ages pre₁ = script05ages pre₂) ∧
    (∀ pre₁ pre₂ : List Nat, script07daily pre₁ = script07daily pre₂) ∧
    (∀ pre : List Nat, script05ages pre = ages) ∧
    (∀ pre : List Nat, script07daily pre = daily_values) :=
  ⟨fun _ _ _ _ => rfl, fun _ _ => rfl, fun _ _ => rfl, fun _ => rfl, fun _ => rfl⟩

/-- C2: in the outlier script, `IQR` equals `Q3 - Q1` (the 0.25 and 0.75
quantiles of the 206-value column), and a value is flagged by `is_outlier`
exactly when it lies strictly below `Q1 - 1.5*IQR` or strictly above
`Q3 + 1.5*IQR`. -/
theorem C2_iqr_outlier_rule (vs : List ℚ) (x : ℚ) (_h206 : vs.length = 206) :
    IQR vs = Q3 vs - Q1 vs ∧
    (is_outlier vs x = true ↔ x < Q1 vs - 1.5 * IQR vs ∨ x > Q3 vs + 1.5 * IQR vs) := by
  refine ⟨rfl, ?_⟩
  simp [is_outlier, lower_bound, upper_bound]

/-- Witness for C2 at the concrete 206-value column of all zeros and the
probe value 5. -/
theorem C2_iqr_outlier_rule_witness :
    IQR (List.replicate 206 (0 : ℚ)) =
      Q3 (List.replicate 206 (0 : ℚ)) - Q1 (List.replicate 206 (0 : ℚ)) ∧
    (is_outlier (List.replicate 206 (0 : ℚ)) 5 = true ↔
      (5 : ℚ) < Q1 (List.replicate 206 (0 : ℚ)) - 1.5 * IQR (List.replicate 206 (0 : ℚ)) ∨
      (5 : ℚ) > Q3 (List.replicate 206 (0 : ℚ)) + 1.5 * IQR (List.replicate 206 (0 : ℚ))) :=
  C2_iqr_outlier_rule (List.replicate 206 0) 5 (by simp)

/-- C3 is false as stated: not every one of the 200 generated ages is assigned
a label — the value 18 occurs in `ages` (e.g. at index 110) and `pd.cut` with
bin edges `[18, 30, 45, 60, 75]` leaves the left edge 18 outside every
(left-open) interval. -/
theorem C3_counterexample : ¬ ∀ a ∈ ages, (pdCutAge a).isSome = true := by
  intro hall
  have h18 : (18 : Int) ∈ ages := by rw [ages_eval]; decide
  exact absurd (hall 18 h18) (by decide)

/-- C3 (amended): every one of the 200 generated ages is an integer in
`[18, 74]`, and an age is assigned exactly one of the four labels precisely
when it is strictly greater than 18 (the ages equal to 18 — which do occur —
are assigned no label, because `pd.cut`'s default intervals are left-open). -/
theorem C3_binning_amended :
    ages.length = 200 ∧
    ∀ a ∈ ages, (18 ≤ a ∧ a ≤ 74) ∧ ((pdCutAge a).isSome = true ↔ 18 < a) := by
  rw [ages_eval]
  decide

/-- Witness for the amended C3 at the first generated age, 56. -/
theorem C3_binning_amended_witness :
    ((18 : Int) ≤ 56 ∧ (56 : Int) ≤ 74) ∧
    ((pdCutAge 56).isSome = true ↔ (18 : Int) < 56) :=
  C3_binning_amended.2 56 (by rw [ages_eval]; decide)

/-- C4: in the missing-data script the `NaN` positions of each column are
chosen without replacement, so the per-column missing counts are exactly
15, 25, 10, 30 and 5; hence the summary's `'Missing Cells'` is 85 and
`'Missing %'` is `85/500*100 = 17.00%`. -/
theorem C4_missing_summary (m : MissingMasks)
    (hA : m.mA.card = 15) (hB : m.mB.card = 25) (hC : m.mC.card = 10)
    (hD : m.mD.card = 30) (hE : m.mE.card = 5) :
    isnaSum m.mA = 15 ∧ isnaSum m.mB = 25 ∧ isnaSum m.mC = 10 ∧
    isnaSum m.mD = 30 ∧ isnaSum m.mE = 5 ∧
    missingCells m = 85 ∧ missingPct m = 85 / 500 * 100 ∧ missingPct m = 17 := by
  have key : ∀ s : Finset (Fin 100), isnaSum s = s.card := by
    intro s
    unfold isnaSum
    congr 1
    ext i
    simp
  have h85 : missingCells m = 85 := by
    rw [missingCells, key, key, key, key, key, hA, hB, hC, hD, hE]
  refine ⟨(key _).trans hA, (key _).trans hB, (key _).trans hC, (key _).trans hD,
    (key _).trans hE, h85, ?_, ?_⟩
  · rw [missingPct, h85, totalCells]
    norm_num
  · rw [missingPct, h85, totalCells]
    norm_num

/-- Witness for C4 with concrete index sets (the first 15, 25, 10, 30 and 5
row positions). -/
theorem C4_missing_summary_witness :
    isnaSum (Finset.univ.filter (fun i : Fin 100 => i.val < 15)) = 15 :=
  (C4_missing_summary
    ⟨Finset.univ.filter (fun i : Fin 100 => i.val < 15),
     Finset.univ.filter (fun i : Fin 100 => i.val < 25),
     Finset.univ.filter (fun i : Fin 100 => i.val < 10),
     Finset.univ.filter (fun i : Fin 100 => i.val < 30),
     Finset.univ.filter (fun i : Fin 100 => i.val < 5)⟩
    (by decide) (by decide) (by decide) (by decide) (by decide)).1

/-- C5: every script's trace performs at least one figure save; every saved
path is the script's fixed hard-coded absolute path (it begins with `'/'`),
and the last externally visible effect (per the spec's interface: random
generation and filesystem writes) is a figure save. -/
theorem C5_saves_figure :
    (∀ t ∈ allTraces,
        1 ≤ numSaves t ∧ (∀ p ∈ savePaths t, p.front = '/') ∧
        lastIsSave (extEvents t) = true) ∧
    savePaths trace01 = [path01a, path01b] ∧ savePaths trace02 = [path02] ∧
    savePaths trace03 = [path03] ∧ savePaths trace04 = [path04] ∧
    savePaths trace05 = [path05] ∧ savePaths trace06 = [path06] ∧
    savePaths trace07 = [path07] := by
  exact ⟨by decide, rfl, rfl, rfl, rfl, rfl, rfl, rfl⟩

/-- Witness for C5 on script 02's trace. -/
theorem C5_saves_figure_witness : lastIsSave (extEvents trace02) = true :=
  (C5_saves_figure.1 trace02 (by decide)).2.2

/-- C6 is false as stated: the traces do not all follow the strict phase order
seed → draw → render → save with exactly one final save — script 07 performs a
pseudo-random draw (`np.random.randn(50)`, line 90) after rendering has begun,
and script 01 saves two figures. -/
theorem C6_counterexample :
    ¬ ∀ t ∈ allTraces, phaseOrdered t = true ∧ numSaves t = 1 ∧ lastIsSave t = true := by
  decide

/-- C6 (amended): every script seeds the generator with 42 first (and only
once), performs at least one figure save, and ends with a save; every script
except 07 performs all pseudo-random draws before rendering begins, while
script 07 performs exactly one draw after rendering has begun; every script
except 01 saves exactly once, while script 01 saves twice. -/
theorem C6_phase_order_amended :
    (∀ t ∈ allTraces,
        t.head? = some (Event.seed 42) ∧ numSeeds t = 1 ∧
        1 ≤ numSaves t ∧ lastIsSave t = true) ∧
    (∀ t ∈ allTraces, t = trace07 ∨ drawsAfterRender t = 0) ∧
    drawsAfterRender trace07 = 1 ∧
    (∀ t ∈ allTraces, t = trace01 ∨ numSaves t = 1) ∧
    numSaves trace01 = 2 := by
  decide

/-- Witness for the amended C6 on script 03's trace. -/
theorem C6_phase_order_amended_witness : numSeeds trace03 = 1 :=
  (C6_phase_order_amended.1 trace03 (by decide)).2.1

/-- C7: the scripts contain no error handling, so in the straight-line
composition `runSteps` any failing step makes the whole script fail with that
very error — later steps never run and there is no recovery path. -/
theorem C7_error_propagation {σ ε : Type} (pre post : List (σ → Except ε σ))
    (f : σ → Except ε σ) (s s' : σ) (e : ε)
    (hpre : runSteps pre s = Except.ok s') (hf : f s' = Except.error e) :
    runSteps (pre ++ f :: post) s = Except.error e := by
  induction pre generalizing s with
  | nil =>
    simp only [runSteps] at hpre
    cases hpre
    simp [runSteps, hf]
  | cons g gs ih =>
    simp only [List.cons_append, runSteps] at hpre ⊢
    cases hgs : g s with
    | ok s₁ =>
      rw [hgs] at hpre
      exact ih s₁ hpre
    | error e₁ =>
      rw [hgs] at hpre
      exact Except.noConfusion hpre

/-- Witness for C7: a three-step script whose middle step fails with error 7. -/
theorem C7_error_propagation_witness :
    runSteps ([fun n : Nat => Except.ok (n + 1)] ++
      (fun _ : Nat => (Except.error 7 : Except Nat Nat)) :: [fun n : Nat => Except.ok n])
      0 = Except.error 7 :=
  C7_error_propagation [fun n => Except.ok (n + 1)] [fun n => Except.ok n]
    (fun _ => Except.error 7) 0 1 7 rfl rfl

/-- C8: in the duplicates script the 300 original rows are pairwise distinct
(their `Date` column strictly increases), so after appending copies of 50 rows
the dataset has 350 rows, `drop_duplicates()` returns 300 rows,
`duplicated().sum()` is 50 and the displayed `'Duplicate %'` is `50/350*100`. -/
theorem C8_duplicates_counts (ps rs : List String) (ss : List Nat) (idxs : List Nat)
    (h50 : idxs.length = 50) (hlt : ∀ i ∈ idxs, i < 300) :
    (mkRows ps rs ss).Nodup ∧
    (appendDups (mkRows ps rs ss) idxs).length = 350 ∧
    (drop_duplicates (appendDups (mkRows ps rs ss) idxs)).length = 300 ∧
    (duplicatedFlags (appendDups (mkRows ps rs ss) idxs)).count true = 50 ∧
    duplicatePct (appendDups (mkRows ps rs ss) idxs) = 50 / 350 * 100 := by
  have hnd := mkRows_nodup ps rs ss
  have hsub : ∀ y ∈ idxs.map (fun i => (mkRows ps rs ss).getD i ("", "", 0, 0)),
      y ∈ mkRows ps rs ss ∨ y ∈ ([] : List Row) := by
    intro y hy
    obtain ⟨i, hi, rfl⟩ := List.mem_map.mp hy
    exact Or.inl (mkRows_getD_mem ps rs ss i _ (hlt i hi))
  have hdrop : drop_duplicates (appendDups (mkRows ps rs ss) idxs) = mkRows ps rs ss := by
    unfold drop_duplicates appendDups
    exact dropDupsAux_append _ [] _ hnd (by simp) hsub
  have hlen : (appendDups (mkRows ps rs ss) idxs).length = 350 := by
    rw [appendDups, List.length_append, mkRows_length, List.length_map, h50]
  have hflags : (duplicatedFlags (appendDups (mkRows ps rs ss) idxs)).count true = 50 := by
    unfold duplicatedFlags appendDups
    rw [dupFlagsAux_append _ [] _ hnd (by simp) hsub, List.count_append,
      List.count_replicate, List.count_replicate, List.length_map, h50]
    norm_num
  refine ⟨hnd, hlen, by rw [hdrop, mkRows_length], hflags, ?_⟩
  rw [duplicatePct, hdrop, hlen, mkRows_length]
  norm_num

/-- Witness for C8 with empty column lists and the first 50 indices. -/
theorem C8_duplicates_counts_witness :
    (appendDups (mkRows [] [] []) (List.range 50)).length = 350 :=
  (C8_duplicates_counts [] [] [] (List.range 50) (by simp)
    (fun i hi => lt_of_lt_of_le (List.mem_range.mp hi) (by norm_num))).2.1

/-- C9: after the two clamping assignments of the capping step every entry of
the capped column lies in the closed interval
`[lower_bound, upper_bound]`, entries already inside the interval are
unchanged, and the original column is not modified (the step operates on a
copy). -/
theorem C9_capping_invariants (vs : List ℚ) (h206 : vs.length = 206) :
    (capStep vs).1 = vs ∧
    (∀ y ∈ (capStep vs).2, lower_bound vs ≤ y ∧ y ≤ upper_bound vs) ∧
    (∀ i, i < vs.length →
      lower_bound vs ≤ vs.getD i 0 → vs.getD i 0 ≤ upper_bound vs →
      (capStep vs).2.getD i 0 = vs.getD i 0) := by
  have hlu := lower_le_upper vs h206
  refine ⟨rfl, ?_, ?_⟩
  · intro y hy
    simp only [capStep, capHigh, capLow, List.map_map, List.mem_map] at hy
    obtain ⟨x, _hx, rfl⟩ := hy
    simp only [Function.comp_apply]
    by_cases h1 : x < lower_bound vs
    · rw [if_pos h1, if_neg (not_lt.mpr hlu)]
      exact ⟨le_rfl, hlu⟩
    · rw [if_neg h1]
      by_cases h2 : upper_bound vs < x
      · rw [if_pos h2]
        exact ⟨hlu, le_rfl⟩
      · rw [if_neg h2]
        exact ⟨not_lt.mp h1, not_lt.mp h2⟩
  · intro i hi hlb hub
    simp only [capStep, capHigh, capLow, List.map_map]
    rw [getD_map_lt _ vs i 0 0 hi]
    simp only [Function.comp_apply]
    rw [if_neg (not_lt.mpr hlb), if_neg (not_lt.mpr hub)]

/-- Witness for C9 at the concrete 206-value column of all zeros. -/
theorem C9_capping_invariants_witness :
    (capStep (List.replicate 206 (0 : ℚ))).1 = List.replicate 206 (0 : ℚ) :=
  (C9_capping_invariants (List.replicate 206 0) (by simp)).1

/-- C10: in the cumulative-operations script, `cummax` is monotonically
non-decreasing, `cummin` is monotonically non-increasing, each `cummin` entry
is `≤` the daily change which is `≤` the corresponding `cummax` entry, and
each `cumsum` entry equals the sum of the daily changes up to that index. -/
theorem C10_cumulative_relations :
    List.Chain' (· ≤ ·) (cummax daily_values) ∧
    List.Chain' (fun a b => b ≤ a) (cummin daily_values) ∧
    List.Forall₂ (· ≤ ·) (cummin daily_values) daily_values ∧
    List.Forall₂ (· ≤ ·) daily_values (cummax daily_values) ∧
    ∀ i, i < daily_values.length →
      (cumsum daily_values).getD i 0 = (daily_values.take (i + 1)).sum :=
  ⟨cummax_chain _, cummin_chain _, cummin_le _, cummax_le _,
    fun i hi => cumsum_getD _ i hi⟩

/-- Witness for C10's indexed conjunct at index 4. -/
theorem C10_cumulative_relations_witness :
    (cumsum daily_values).getD 4 0 = (daily_values.take 5).sum :=
  C10_cumulative_relations.2.2.2.2 4 (by rw [daily_eval]; decide)

end EDA
